import Mathlib

/-!
Verification development for the PATCH error-event service.

The repository is a small Python web service: pydantic models
(app/model/error_event.py, app/model/lob_application.py), psycopg2-backed
data-access objects (app/dao/error_event_dao.py, app/dao/lob_application_dao.py),
service classes (app/service/error_event_service.py,
app/service/lob_applications_service.py) and a FastAPI boundary
(app/web_main.py).

The embedding below models:
  - Python runtime values (PyValue) and the exceptions the code can raise
    (PyError: psycopg2.Error, ValueError, AttributeError, and pydantic's
    ValidationError);
  - the pydantic ErrorEvent model, with its exact field list, defaults,
    keyword construction (required fields checked in declaration order,
    unknown keywords ignored, as pydantic does) and Python attribute access
    (AttributeError for a name the model does not define);
  - the database as explicit state (rows of lob_applications and
    error_events, a row-id counter and a clock for the SQL now());
  - the connection pool of each DAO as counters (pool constructions,
    getconn and putconn calls) plus the lazily-created pool flag;
  - the scoped cursor of the DAOs (the nested context managers
    _get_db_connection and _get_db_cursor): commit on normal completion,
    explicit rollback for psycopg2 errors, connection returned to the pool
    in the finally on every path.  For a non-psycopg2 failure the wrapper
    itself issues no rollback; the open transaction is rolled back when the
    finally block hands the connection to pool.putconn, which is how
    psycopg2's ThreadedConnectionPool resets a returned connection
    (pool.putconn rolls back a connection that is still in a transaction).
    The TxEnd type records which of the three endings happened;
  - the DAO, service and web-handler functions the claims are about,
    translated statement by statement from the Python source.
-/

/-- A Python runtime value, as far as the claims need one. -/
inductive PyValue where
  | none
  | bool (b : Bool)
  | int (n : Int)
  | str (s : String)
  deriving DecidableEq, BEq

/-- Python truthiness, used by the approve endpoint's `if success:` test. -/
def PyValue.truthy : PyValue → Bool
  | PyValue.none => false
  | PyValue.bool b => b
  | PyValue.int n => !(n == 0)
  | PyValue.str s => !(s == "")

/-- The exceptions this code base can raise. pgError stands for
psycopg2.Error (the only class the DAO except-clauses catch);
validationError stands for pydantic's ValidationError, carrying the first
field whose validation failed. -/
inductive PyError where
  | pgError (msg : String)
  | valueError (msg : String)
  | attributeError (name : String)
  | validationError (fieldName : String)
  deriving DecidableEq, BEq

/-- Whether an exception is a psycopg2.Error, the class the DAO catches. -/
def PyError.isPgError : PyError → Bool
  | PyError.pgError _ => true
  | _ => false

/-- Abstract rendering of datetime.isoformat on the model's Nat clock. -/
def isoformat (t : Nat) : String := toString t

/-- The pydantic ErrorEvent model of app/model/error_event.py: six required
request fields (correlation_id, stack_trace, lob, application_name,
environment, timestamp) and the optional database fields with their
declared defaults.  Note the model defines NO error_timestamp,
origin_line_number, origin_class, user_resolution_acceptance,
user_feedback, source_branch or affected_jira_ids attribute. -/
structure ErrorEvent where
  correlation_id : String
  stack_trace : String
  lob : String
  application_name : String
  environment : String
  timestamp : String
  event_id : PyValue := PyValue.none
  lob_app_id : PyValue := PyValue.none
  event_state : PyValue := PyValue.str "NEW"
  span_id : PyValue := PyValue.none
  stacktrace : PyValue := PyValue.none
  origin_method : PyValue := PyValue.none
  resolution : PyValue := PyValue.none
  pull_request_url : PyValue := PyValue.none
  confidence : PyValue := PyValue.none
  resolution_acceptance_state : PyValue := PyValue.none
  occurrence_count : PyValue := PyValue.int 1
  created_ts : PyValue := PyValue.none
  updated_ts : PyValue := PyValue.none
  deriving DecidableEq

/-- Python attribute access on an ErrorEvent instance: the nineteen fields
the model declares; any other name raises AttributeError, as pydantic
BaseModel instances do. -/
def ErrorEvent.getattr (e : ErrorEvent) (name : String) : Except PyError PyValue :=
  match name with
  | "correlation_id" => Except.ok (PyValue.str e.correlation_id)
  | "stack_trace" => Except.ok (PyValue.str e.stack_trace)
  | "lob" => Except.ok (PyValue.str e.lob)
  | "application_name" => Except.ok (PyValue.str e.application_name)
  | "environment" => Except.ok (PyValue.str e.environment)
  | "timestamp" => Except.ok (PyValue.str e.timestamp)
  | "event_id" => Except.ok e.event_id
  | "lob_app_id" => Except.ok e.lob_app_id
  | "event_state" => Except.ok e.event_state
  | "span_id" => Except.ok e.span_id
  | "stacktrace" => Except.ok e.stacktrace
  | "origin_method" => Except.ok e.origin_method
  | "resolution" => Except.ok e.resolution
  | "pull_request_url" => Except.ok e.pull_request_url
  | "confidence" => Except.ok e.confidence
  | "resolution_acceptance_state" => Except.ok e.resolution_acceptance_state
  | "occurrence_count" => Except.ok e.occurrence_count
  | "created_ts" => Except.ok e.created_ts
  | "updated_ts" => Except.ok e.updated_ts
  | other => Except.error (PyError.attributeError other)

/-- Keyword-argument lookup for pydantic construction. -/
def lookupKw (kwargs : List (String × PyValue)) (key : String) : Option PyValue :=
  (kwargs.find? (fun p => p.1 == key)).map (fun p => p.2)

/-- A required str field of the model: absent or non-str keyword means the
model raises ValidationError naming the field. -/
def requiredStr (kwargs : List (String × PyValue)) (key : String) : Except PyError String :=
  match lookupKw kwargs key with
  | Option.some (PyValue.str s) => Except.ok s
  | Option.some _ => Except.error (PyError.validationError key)
  | Option.none => Except.error (PyError.validationError key)

/-- An optional field takes the keyword when given, its declared default
otherwise. -/
def optionalKw (kwargs : List (String × PyValue)) (key : String) (dflt : PyValue) : PyValue :=
  (lookupKw kwargs key).getD dflt

/-- Keyword construction of an ErrorEvent, as pydantic performs it:
required fields are validated in model declaration order, optional fields
fall back to their defaults, unknown keywords are ignored (pydantic's
default extra behavior). -/
def ErrorEvent.pydanticInit (kwargs : List (String × PyValue)) : Except PyError ErrorEvent :=
  match requiredStr kwargs "correlation_id" with
  | Except.error err => Except.error err
  | Except.ok vCorrelation =>
  match requiredStr kwargs "stack_trace" with
  | Except.error err => Except.error err
  | Except.ok vStackTrace =>
  match requiredStr kwargs "lob" with
  | Except.error err => Except.error err
  | Except.ok vLob =>
  match requiredStr kwargs "application_name" with
  | Except.error err => Except.error err
  | Except.ok vApp =>
  match requiredStr kwargs "environment" with
  | Except.error err => Except.error err
  | Except.ok vEnv =>
  match requiredStr kwargs "timestamp" with
  | Except.error err => Except.error err
  | Except.ok vTimestamp =>
  Except.ok
    { correlation_id := vCorrelation
      stack_trace := vStackTrace
      lob := vLob
      application_name := vApp
      environment := vEnv
      timestamp := vTimestamp
      event_id := optionalKw kwargs "event_id" PyValue.none
      lob_app_id := optionalKw kwargs "lob_app_id" PyValue.none
      event_state := optionalKw kwargs "event_state" (PyValue.str "NEW")
      span_id := optionalKw kwargs "span_id" PyValue.none
      stacktrace := optionalKw kwargs "stacktrace" PyValue.none
      origin_method := optionalKw kwargs "origin_method" PyValue.none
      resolution := optionalKw kwargs "resolution" PyValue.none
      pull_request_url := optionalKw kwargs "pull_request_url" PyValue.none
      confidence := optionalKw kwargs "confidence" PyValue.none
      resolution_acceptance_state := optionalKw kwargs "resolution_acceptance_state" PyValue.none
      occurrence_count := optionalKw kwargs "occurrence_count" (PyValue.int 1)
      created_ts := optionalKw kwargs "created_ts" PyValue.none
      updated_ts := optionalKw kwargs "updated_ts" PyValue.none }

/-- The pydantic LobApplication model of app/model/lob_application.py. -/
structure LobApplication where
  lob_app_id : Option Int
  application_name : Option String
  lob : Option String
  auto_resolve : Bool
  environment : String
  git_remote_url : String
  lookup_branch_pattern : String
  filter_pii : Bool
  created_ts : Option String
  updated_ts : Option String
  notification_dls : String
  app_info_actuator_url : Option String
  jira_projects_url : Option String
  app_dynamics_url : Option String
  deriving DecidableEq

/-- One row of the lob_applications table. -/
structure LobAppRow where
  lob_app_id : Int
  application_name : Option String
  lob : Option String
  auto_resolve : Bool
  environment : String
  git_remote_url : String
  lookup_branch_pattern : String
  filter_pii : Bool
  created_ts : Nat
  updated_ts : Nat
  notification_dls : String
  app_info_actuator_url : Option String := Option.none
  jira_projects_url : Option String := Option.none
  app_dynamics_url : Option String := Option.none
  deriving DecidableEq

/-- One row of the error_events table.  The data columns hold Python values
as the driver returns them; timestamps are the model's Nat clock. -/
structure ErrorEventRow where
  event_id : Int
  lob_app_id : PyValue
  event_state : PyValue
  correlation_id : PyValue
  span_id : PyValue := PyValue.none
  stacktrace : PyValue := PyValue.none
  origin_method : PyValue := PyValue.none
  resolution : PyValue := PyValue.none
  pull_request_url : PyValue := PyValue.none
  confidence : PyValue := PyValue.none
  user_resolution_acceptance : PyValue := PyValue.none
  occurrence_count : PyValue := PyValue.int 1
  created_ts : Nat
  updated_ts : Nat
  error_timestamp : Nat
  user_feedback : PyValue := PyValue.none
  origin_line_number : PyValue := PyValue.none
  origin_class : PyValue := PyValue.none
  source_branch : PyValue := PyValue.none
  affected_jira_ids : PyValue := PyValue.none
  deriving DecidableEq

/-- The relational store: the two tables, the serial event-id counter and a
clock supplying the server-assigned timestamps (created_ts, updated_ts,
now()). -/
structure DB where
  lob_applications : List LobAppRow
  error_events : List ErrorEventRow
  next_event_id : Int
  now : Nat
  deriving DecidableEq

/-- The pool-related state of one DAO instance: whether _connection_pool is
set, how many ThreadedConnectionPool objects were ever constructed, and the
running getconn / putconn counts. -/
structure Dao where
  has_pool : Bool
  pools_created : Nat
  acquires : Nat
  releases : Nat
  deriving DecidableEq

/-- _get_connection_pool: lazily construct the pool when _connection_pool
is None (double-checked locking in the source; a single construction in
this sequential model). -/
def Dao.ensurePool (dao : Dao) : Dao :=
  if dao.has_pool then dao
  else { dao with has_pool := true, pools_created := dao.pools_created + 1 }

/-- How the transaction of one scoped-cursor unit of work ended. -/
inductive TxEnd where
  | committed
  /-- connection.rollback() in the except psycopg2.Error branch of
  _get_db_cursor. -/
  | rolledBack
  /-- No rollback by the wrapper (the failure was not a psycopg2.Error);
  the still-open transaction is rolled back when the finally block returns
  the connection through pool.putconn, which resets a connection that is
  still in a transaction. -/
  | rolledBackOnPutconn
  deriving DecidableEq, BEq

/-- Outcome of one scoped-cursor unit of work. -/
structure CursorResult (α : Type) where
  dao : Dao
  db : DB
  result : Except PyError α
  txEnd : TxEnd

/-- The nested context managers _get_db_connection / _get_db_cursor of the
DAOs (the two DAO classes contain the identical code): ensure the pool,
getconn, run the enclosed operation on the store, commit on normal
completion, roll back explicitly on psycopg2.Error, and putconn in the
finally on every path.  A failing operation leaves the store unchanged
(its transaction never commits). -/
def with_db_cursor {α : Type} (dao : Dao) (db : DB)
    (body : DB → Except PyError (DB × α)) : CursorResult α :=
  let d1 := dao.ensurePool
  let d2 := { d1 with acquires := d1.acquires + 1 }
  let d3 := { d2 with releases := d2.releases + 1 }
  match body db with
  | Except.ok (db2, a) =>
      { dao := d3, db := db2, result := Except.ok a, txEnd := TxEnd.committed }
  | Except.error e =>
      { dao := d3, db := db, result := Except.error e,
        txEnd := if e.isPgError then TxEnd.rolledBack else TxEnd.rolledBackOnPutconn }

/-- ErrorEventDao.close_connection_pool: closeall on the pool and reset
_connection_pool to None.  Nothing marks the DAO as shut down. -/
def ErrorEventDao.close_connection_pool (dao : Dao) : Dao :=
  if dao.has_pool then { dao with has_pool := false } else dao

/-- The attribute names save_error_event reads off its argument, in the
order the INSERT parameter tuple evaluates them
(app/dao/error_event_dao.py lines 154-165). -/
def saveInsertAttrNames : List String :=
  ["lob_app_id", "event_state", "correlation_id", "span_id", "stacktrace",
   "origin_method", "occurrence_count", "error_timestamp",
   "origin_line_number", "origin_class"]

/-- Building the INSERT parameter tuple of save_error_event: Python
evaluates the attribute reads left to right, so the first undefined
attribute raises AttributeError before cursor.execute runs. -/
def saveInsertParams (e : ErrorEvent) : Except PyError (List PyValue) :=
  saveInsertAttrNames.mapM e.getattr

/-- Coercion of an inserted parameter into the error_timestamp column
(unreachable: parameter evaluation fails before any insert). -/
def pyTimestamp : PyValue → Nat
  | PyValue.int n => n.toNat
  | _ => 0

/-- The INSERT INTO error_events ... RETURNING event_id, created_ts,
updated_ts statement: appends a row with server-assigned id and
timestamps and returns the assigned values. -/
def insertErrorEventRow (db : DB) (ps : List PyValue) :
    Except PyError (DB × (Int × Nat × Nat)) :=
  match ps with
  | [pLobAppId, pEventState, pCorrelationId, pSpanId, pStacktrace,
     pOriginMethod, pOccurrenceCount, pErrorTimestamp, pOriginLineNumber,
     pOriginClass] =>
    let row : ErrorEventRow :=
      { event_id := db.next_event_id
        lob_app_id := pLobAppId
        event_state := pEventState
        correlation_id := pCorrelationId
        span_id := pSpanId
        stacktrace := pStacktrace
        origin_method := pOriginMethod
        occurrence_count := pOccurrenceCount
        created_ts := db.now
        updated_ts := db.now
        error_timestamp := pyTimestamp pErrorTimestamp
        origin_line_number := pOriginLineNumber
        origin_class := pOriginClass }
    Except.ok
      ({ db with error_events := db.error_events ++ [row],
                 next_event_id := db.next_event_id + 1 },
       (db.next_event_id, db.now, db.now))
  | _ => Except.error (PyError.pgError "bad insert parameters")

/-- ErrorEventDao.save_error_event: evaluate the parameter tuple from the
argument's attributes, execute the INSERT, and copy the returned id and
timestamps back onto the argument. -/
def ErrorEventDao.save_error_event (dao : Dao) (db : DB) (e : ErrorEvent) :
    CursorResult ErrorEvent :=
  with_db_cursor dao db (fun dbCur =>
    match saveInsertParams e with
    | Except.error err => Except.error err
    | Except.ok ps =>
      match insertErrorEventRow dbCur ps with
      | Except.error err => Except.error err
      | Except.ok (db2, ret) =>
        Except.ok (db2,
          { e with event_id := PyValue.int ret.1,
                   created_ts := PyValue.str (isoformat ret.2.1),
                   updated_ts := PyValue.str (isoformat ret.2.2) }))

/-- The keyword arguments of the ErrorEvent constructor call in
ErrorEventDao.find_by_id (app/dao/error_event_dao.py lines 207-232): the
twenty selected columns plus the literal empty strings for lob,
application_name and environment.  The model's required stack_trace and
timestamp fields are not among them. -/
def findByIdRowKwargs (r : ErrorEventRow) : List (String × PyValue) :=
  [("event_id", PyValue.int r.event_id),
   ("lob_app_id", r.lob_app_id),
   ("event_state", r.event_state),
   ("correlation_id", r.correlation_id),
   ("span_id", r.span_id),
   ("stacktrace", r.stacktrace),
   ("origin_method", r.origin_method),
   ("resolution", r.resolution),
   ("pull_request_url", r.pull_request_url),
   ("confidence", r.confidence),
   ("user_resolution_acceptance", r.user_resolution_acceptance),
   ("occurrence_count", r.occurrence_count),
   ("created_ts", PyValue.str (isoformat r.created_ts)),
   ("updated_ts", PyValue.str (isoformat r.updated_ts)),
   ("error_timestamp", PyValue.str (isoformat r.error_timestamp)),
   ("user_feedback", r.user_feedback),
   ("origin_line_number", r.origin_line_number),
   ("origin_class", r.origin_class),
   ("source_branch", r.source_branch),
   ("affected_jira_ids", r.affected_jira_ids),
   ("lob", PyValue.str ""),
   ("application_name", PyValue.str ""),
   ("environment", PyValue.str "")]

/-- ErrorEventDao.find_by_id: SELECT the row by id; absent means None, a
found row is passed to the ErrorEvent constructor with the keyword
arguments above. -/
def ErrorEventDao.find_by_id (dao : Dao) (db : DB) (event_id : Int) :
    CursorResult (Option ErrorEvent) :=
  with_db_cursor dao db (fun dbCur =>
    match dbCur.error_events.find? (fun r => r.event_id == event_id) with
    | Option.some r =>
      match ErrorEvent.pydanticInit (findByIdRowKwargs r) with
      | Except.ok e => Except.ok (dbCur, Option.some e)
      | Except.error err => Except.error err
    | Option.none => Except.ok (dbCur, Option.none))

/-- ErrorEventDao.update_event_state: UPDATE error_events SET event_state,
updated_ts = now() WHERE event_id = given id; raise ValueError when the
update matched no row (cursor.rowcount of 0). -/
def ErrorEventDao.update_event_state (dao : Dao) (db : DB) (event_id : Int)
    (new_state : String) : CursorResult Unit :=
  with_db_cursor dao db (fun dbCur =>
    let rows_affected :=
      (dbCur.error_events.filter (fun r => r.event_id == event_id)).length
    let db2 : DB :=
      { dbCur with error_events := dbCur.error_events.map (fun r =>
          if r.event_id == event_id then
            { r with event_state := PyValue.str new_state, updated_ts := dbCur.now }
          else r) }
    if rows_affected > 0 then Except.ok (db2, ())
    else Except.error (PyError.valueError "No error event found"))

/-- The method names the ErrorEventDao class defines
(app/dao/error_event_dao.py).  There is no update_user_feedback,
update_affected_jira or update_stacktrace_vector among them. -/
def errorEventDaoMethodNames : List String :=
  ["__init__", "_get_connection_pool", "_get_db_connection", "_get_db_cursor",
   "save_error_event", "find_by_id", "find_by_lob", "update_event_state",
   "update_error_resolution", "close_connection_pool"]

/-- Python attribute lookup of a method on an ErrorEventDao instance:
AttributeError for a name the class does not define. -/
def ErrorEventDao.getattrMethod (name : String) : Except PyError Unit :=
  if errorEventDaoMethodNames.contains name then Except.ok ()
  else Except.error (PyError.attributeError name)

/-- LobApplicationDao.find_by_lob_application_and_environment: SELECT by
the natural key, first match or None; a found row materializes a
LobApplication (every required model field is supplied, so this
construction succeeds). -/
def LobApplicationDao.find_by_lob_application_and_environment (dao : Dao) (db : DB)
    (lob : String) (application_name : String) (environment : String) :
    CursorResult (Option LobApplication) :=
  with_db_cursor dao db (fun dbCur =>
    Except.ok (dbCur,
      (dbCur.lob_applications.find? (fun r =>
          r.lob == Option.some lob &&
          r.application_name == Option.some application_name &&
          r.environment == environment)).map (fun r =>
        { lob_app_id := Option.some r.lob_app_id
          application_name := r.application_name
          lob := r.lob
          auto_resolve := r.auto_resolve
          environment := r.environment
          git_remote_url := r.git_remote_url
          lookup_branch_pattern := r.lookup_branch_pattern
          filter_pii := r.filter_pii
          created_ts := Option.some (isoformat r.created_ts)
          updated_ts := Option.some (isoformat r.updated_ts)
          notification_dls := r.notification_dls
          app_info_actuator_url := r.app_info_actuator_url
          jira_projects_url := r.jira_projects_url
          app_dynamics_url := r.app_dynamics_url })))

/-- LobApplicationsService.get_lob_application_by_lob_app_and_env: a thin
delegation to the DAO. -/
def LobApplicationsService.get_lob_application_by_lob_app_and_env (dao : Dao) (db : DB)
    (lob : String) (application_name : String) (environment : String) :
    CursorResult (Option LobApplication) :=
  LobApplicationDao.find_by_lob_application_and_environment dao db lob
    application_name environment

/-- Outcome of a service method: the DAO and store state after the call
and the returned value or raised exception. -/
structure ServiceResult (α : Type) where
  dao : Dao
  db : DB
  result : Except PyError α

/-- ErrorEventService.create_error_event: set lob_app_id and event_state on
the event, then save it through the DAO. -/
def ErrorEventService.create_error_event (dao : Dao) (db : DB) (e : ErrorEvent)
    (lob_app_id : Option Int) (event_state : String) : CursorResult ErrorEvent :=
  ErrorEventDao.save_error_event dao db
    { e with
      lob_app_id := match lob_app_id with
                    | Option.some n => PyValue.int n
                    | Option.none => PyValue.none,
      event_state := PyValue.str event_state }

/-- ErrorEventService.approve_error_event: find_by_id, raise ValueError
when the event is absent or its state is not PENDING_APPROVAL, otherwise
update the state to PROCESSING.  The method body has no return statement,
so a normal completion returns Python None. -/
def ErrorEventService.approve_error_event (dao : Dao) (db : DB) (event_id : Int) :
    ServiceResult PyValue :=
  let r := ErrorEventDao.find_by_id dao db event_id
  match r.result with
  | Except.error e => { dao := r.dao, db := r.db, result := Except.error e }
  | Except.ok Option.none =>
      { dao := r.dao, db := r.db,
        result := Except.error (PyError.valueError "Error event not found") }
  | Except.ok (Option.some ev) =>
      if ev.event_state == PyValue.str "PENDING_APPROVAL" then
        let u := ErrorEventDao.update_event_state r.dao r.db event_id "PROCESSING"
        { dao := u.dao, db := u.db,
          result := match u.result with
                    | Except.ok _ => Except.ok PyValue.none
                    | Except.error e => Except.error e }
      else
        { dao := r.dao, db := r.db,
          result := Except.error
            (PyError.valueError "not in PENDING_APPROVAL state") }

/-- ErrorEventService.update_user_feedback: the body calls
self.error_event_dao.update_user_feedback, a method the ErrorEventDao
class does not define, so the attribute lookup raises AttributeError
before any database work; the except clause logs and re-raises. -/
def ErrorEventService.update_user_feedback (dao : Dao) (db : DB) (event_id : Int)
    (user_resolution_acceptance : String) (user_feedback : String) :
    ServiceResult PyValue :=
  { dao := dao, db := db,
    result := (ErrorEventDao.getattrMethod "update_user_feedback").map
      (fun _ => PyValue.none) }

/-- ErrorEventService.update_affected_jira: the body calls
self.error_event_dao.update_affected_jira, a method the ErrorEventDao
class does not define, so the attribute lookup raises AttributeError
before any database work; the except clause logs and re-raises. -/
def ErrorEventService.update_affected_jira (dao : Dao) (db : DB) (event_id : Int)
    (affected_jira_ids : String) : ServiceResult PyValue :=
  { dao := dao, db := db,
    result := (ErrorEventDao.getattrMethod "update_affected_jira").map
      (fun _ => PyValue.none) }

/-- The process state the web handlers act on: the two DAO instances held
by the two services, and the shared database. -/
structure Sys where
  lobDao : Dao
  eventDao : Dao
  db : DB

/-- Response of the POST /error-events handler. -/
inductive CaptureResponse where
  | skipped (message : String)
  | captured (event_id : PyValue) (event_state : PyValue)
  | httpError (status : Nat)
  deriving DecidableEq, BEq

/-- Response of the POST /error-events/id/approve handler. -/
inductive ApproveResponse where
  | ok (message : String)
  | httpError (status : Nat)
  deriving DecidableEq, BEq

/-- The tail of WebMain.capture_error_event once a configuration was
resolved: decide the state from auto_resolve, create the event, and either
report the created id and state or translate the raised exception to
HTTP 500 (the handler's except Exception branch).  The submit to the
processing queue on auto_resolve is a TODO in the source and has no
observable effect. -/
def captureWithConfig (s : Sys) (e : ErrorEvent) (la : LobApplication) :
    Sys × CaptureResponse :=
  let event_state := if la.auto_resolve then "PROCESSING" else "PENDING_APPROVAL"
  let rc := ErrorEventService.create_error_event s.eventDao s.db e la.lob_app_id event_state
  match rc.result with
  | Except.error _ =>
      ({ s with eventDao := rc.dao, db := rc.db }, CaptureResponse.httpError 500)
  | Except.ok created =>
      ({ s with eventDao := rc.dao, db := rc.db },
       CaptureResponse.captured created.event_id created.event_state)

/-- WebMain.capture_error_event after the configuration lookup: a raised
lookup failure becomes HTTP 500, an absent configuration returns the skip
message, a resolved one continues with captureWithConfig. -/
def captureAfterLookup (s : Sys) (e : ErrorEvent)
    (rl : CursorResult (Option LobApplication)) : Sys × CaptureResponse :=
  match rl.result with
  | Except.error _ =>
      ({ s with lobDao := rl.dao, db := rl.db }, CaptureResponse.httpError 500)
  | Except.ok Option.none =>
      ({ s with lobDao := rl.dao, db := rl.db },
       CaptureResponse.skipped "Error event skipped - no matching LOB application found")
  | Except.ok (Option.some la) =>
      captureWithConfig { s with lobDao := rl.dao, db := rl.db } e la

/-- WebMain.capture_error_event: resolve the configuration by the event's
lob, application_name and environment, then proceed as above. -/
def WebMain.capture_error_event (s : Sys) (e : ErrorEvent) : Sys × CaptureResponse :=
  captureAfterLookup s e
    (LobApplicationsService.get_lob_application_by_lob_app_and_env s.lobDao s.db
      e.lob e.application_name e.environment)

/-- The status translation of WebMain.approve_error_event: a truthy return
from the service is success, a falsy one raises HTTPException 404 (re-raised
unchanged by the except HTTPException clause), and any other exception is
caught by the except Exception clause as HTTP 500. -/
def approveDispatch (result : Except PyError PyValue) : ApproveResponse :=
  match result with
  | Except.ok v =>
      if v.truthy then ApproveResponse.ok "Approved error event"
      else ApproveResponse.httpError 404
  | Except.error _ => ApproveResponse.httpError 500

/-- WebMain.approve_error_event: call the service and translate its
outcome. -/
def WebMain.approve_error_event (s : Sys) (event_id : Int) : Sys × ApproveResponse :=
  let r := ErrorEventService.approve_error_event s.eventDao s.db event_id
  ({ s with eventDao := r.dao, db := r.db }, approveDispatch r.result)

/-! Concrete fixtures used by the closed theorems and witnesses. -/

/-- A freshly constructed DAO instance: no pool yet, no traffic. -/
def dao0 : Dao := { has_pool := false, pools_created := 0, acquires := 0, releases := 0 }

/-- A DAO whose pool has been created and used. -/
def daoWithPool : Dao := { has_pool := true, pools_created := 1, acquires := 3, releases := 3 }

/-- A configuration row with auto_resolve disabled. -/
def lobRow7 : LobAppRow :=
  { lob_app_id := 7
    application_name := Option.some "checkout"
    lob := Option.some "RETAIL"
    auto_resolve := false
    environment := "prod"
    git_remote_url := "https://git.example/checkout.git"
    lookup_branch_pattern := "LATEST_RELEASE"
    filter_pii := false
    created_ts := 50
    updated_ts := 50
    notification_dls := "team-alerts@example.com" }

/-- A configuration row with auto_resolve enabled. -/
def lobRow8 : LobAppRow :=
  { lobRow7 with lob_app_id := 8, application_name := Option.some "payments",
                 auto_resolve := true }

/-- An error_events row in state PENDING_APPROVAL. -/
def row1 : ErrorEventRow :=
  { event_id := 1
    lob_app_id := PyValue.int 7
    event_state := PyValue.str "PENDING_APPROVAL"
    correlation_id := PyValue.str "c-1"
    stacktrace := PyValue.str "trace"
    created_ts := 50
    updated_ts := 50
    error_timestamp := 40 }

/-- An error_events row in state PROCESSING. -/
def rowProcessing : ErrorEventRow :=
  { row1 with event_id := 2, event_state := PyValue.str "PROCESSING" }

/-- An empty store. -/
def db0 : DB := { lob_applications := [], error_events := [], next_event_id := 1, now := 100 }

/-- A store holding the two configurations and no events. -/
def db1 : DB := { db0 with lob_applications := [lobRow7, lobRow8] }

/-- A store holding the two configurations and the PENDING_APPROVAL event. -/
def db2 : DB := { db1 with error_events := [row1], next_event_id := 2 }

/-- A store also holding the PROCESSING event. -/
def db3 : DB := { db1 with error_events := [row1, rowProcessing], next_event_id := 3 }

/-- An inbound event whose key matches lobRow7 (auto_resolve disabled). -/
def ev1 : ErrorEvent :=
  { correlation_id := "c-1"
    stack_trace := "trace"
    lob := "RETAIL"
    application_name := "checkout"
    environment := "prod"
    timestamp := "2026-01-01T00:00:00" }

/-- An inbound event whose key matches lobRow8 (auto_resolve enabled). -/
def ev2 : ErrorEvent := { ev1 with application_name := "payments" }

/-- An inbound event whose key matches no configuration. -/
def evNoConfig : ErrorEvent := { ev1 with lob := "NOWHERE" }

/-- Process state over the empty store. -/
def sys0 : Sys := { lobDao := dao0, eventDao := dao0, db := db0 }

/-- Process state over the store with configurations only. -/
def sys1 : Sys := { lobDao := dao0, eventDao := dao0, db := db1 }

/-- Process state over the store with both events. -/
def sys3 : Sys := { lobDao := dao0, eventDao := dao0, db := db3 }

/-! Shared lemmas. -/

/-- The configuration lookup never changes the store (it only SELECTs). -/
theorem lob_find_preserves_db (dao : Dao) (db : DB) (l a e : String) :
    (LobApplicationDao.find_by_lob_application_and_environment dao db l a e).db = db := rfl

/-- The ErrorEvent constructor call inside find_by_id always raises: the
required stack_trace field is never among its keyword arguments (and a
non-str correlation_id column fails even earlier). -/
theorem pydanticInit_fails_on_findByIdRowKwargs (r : ErrorEventRow) :
    ∃ e, ErrorEvent.pydanticInit (findByIdRowKwargs r) = Except.error e := by
  unfold ErrorEvent.pydanticInit
  cases h : requiredStr (findByIdRowKwargs r) "correlation_id" with
  | error e => exact ⟨e, by simp [h]⟩
  | ok s =>
      refine ⟨PyError.validationError "stack_trace", ?_⟩
      have h2 : requiredStr (findByIdRowKwargs r) "stack_trace"
          = Except.error (PyError.validationError "stack_trace") := rfl
      simp [h, h2]

/-- find_by_id either returns None or raises; it never materializes an
ErrorEvent. -/
theorem find_by_id_result_cases (dao : Dao) (db : DB) (event_id : Int) :
    (ErrorEventDao.find_by_id dao db event_id).result = Except.ok Option.none ∨
    ∃ e, (ErrorEventDao.find_by_id dao db event_id).result = Except.error e := by
  unfold ErrorEventDao.find_by_id with_db_cursor
  cases hf : db.error_events.find? (fun r => r.event_id == event_id) with
  | none => left; simp [hf]
  | some r =>
      right
      obtain ⟨e, he⟩ := pydanticInit_fails_on_findByIdRowKwargs r
      exact ⟨e, by simp [hf, he]⟩

/-- Every call of the approve service raises: find_by_id raises for an
existing event and the absence path raises ValueError. -/
theorem approve_error_event_always_raises (dao : Dao) (db : DB) (event_id : Int) :
    ∃ e, (ErrorEventService.approve_error_event dao db event_id).result
        = Except.error e := by
  unfold ErrorEventService.approve_error_event
  rcases find_by_id_result_cases dao db event_id with h | ⟨e, h⟩
  · exact ⟨PyError.valueError "Error event not found", by simp [h]⟩
  · exact ⟨e, by simp [h]⟩

/-! Claim theorems. -/

/-- Claim C1 (failing-input evidence).  The claim states that an ingestion
request whose key resolves to a configuration persists the event with
state PROCESSING (auto_resolve true) or PENDING_APPROVAL (auto_resolve
false) and returns the new id and state.  The code instead always raises:
save_error_event reads the attribute error_timestamp, which the ErrorEvent
model does not define, so the handler answers HTTP 500 and no row is
written, for either value of auto_resolve. -/
theorem c1_capture_with_config_crashes :
    ((WebMain.capture_error_event sys1 ev1).2 = CaptureResponse.httpError 500 ∧
     (WebMain.capture_error_event sys1 ev1).1.db.error_events = [] ∧
     (WebMain.capture_error_event sys1 ev1).1.db.next_event_id = 1) ∧
    ((WebMain.capture_error_event sys1 ev2).2 = CaptureResponse.httpError 500 ∧
     (WebMain.capture_error_event sys1 ev2).1.db.error_events = []) :=
  ⟨⟨rfl, rfl, rfl⟩, rfl, rfl⟩

/-- Claim C2 (failing-input evidence).  The claim states that approve on a
PENDING_APPROVAL event moves it to PROCESSING.  On the concrete store db2,
whose event 1 is PENDING_APPROVAL, the approve service instead raises the
ValidationError coming out of find_by_id (the ErrorEvent constructor is
called without the required stack_trace and timestamp fields) and leaves
the store unchanged, so the state never becomes PROCESSING. -/
theorem c2_approve_pending_event_fails_validation :
    (ErrorEventService.approve_error_event dao0 db2 1).result
        = Except.error (PyError.validationError "stack_trace") ∧
    (ErrorEventService.approve_error_event dao0 db2 1).db = db2 :=
  ⟨rfl, rfl⟩

/-- Claim C3.  The scoped cursor commits exactly when the enclosed
operation completes normally; a failing operation propagates its failure
with the store unchanged and the transaction rolled back before control
returns (explicitly for psycopg2 errors, through the pool's putconn reset
for any other failure); and on every exit path getconn and putconn each
happen exactly once. -/
theorem c3_scoped_cursor_discipline {α : Type} (dao : Dao) (db : DB)
    (body : DB → Except PyError (DB × α)) :
    ((with_db_cursor dao db body).dao.acquires = dao.acquires + 1 ∧
     (with_db_cursor dao db body).dao.releases = dao.releases + 1) ∧
    (match body db with
     | Except.ok (db2, a) =>
         (with_db_cursor dao db body).txEnd = TxEnd.committed ∧
         (with_db_cursor dao db body).db = db2 ∧
         (with_db_cursor dao db body).result = Except.ok a
     | Except.error e =>
         ((with_db_cursor dao db body).txEnd = TxEnd.rolledBack ∨
          (with_db_cursor dao db body).txEnd = TxEnd.rolledBackOnPutconn) ∧
         (with_db_cursor dao db body).db = db ∧
         (with_db_cursor dao db body).result = Except.error e) := by
  obtain ⟨hp, pc, aq, rl⟩ := dao
  cases hb : body db with
  | ok p =>
      obtain ⟨db2, a⟩ := p
      cases hp <;> simp [with_db_cursor, Dao.ensurePool, hb]
  | error e =>
      cases hpg : PyError.isPgError e <;> cases hp <;>
        simp [with_db_cursor, Dao.ensurePool, hb, hpg]

/-- Claim C4.  An ingestion request whose key matches no configuration is
answered with the skip message, raises nothing, and leaves the store
untouched (in particular no error-event row and no event id). -/
theorem c4_capture_skips_when_no_config (s : Sys) (e : ErrorEvent)
    (h : (LobApplicationDao.find_by_lob_application_and_environment s.lobDao s.db
            e.lob e.application_name e.environment).result = Except.ok Option.none) :
    (WebMain.capture_error_event s e).2
        = CaptureResponse.skipped "Error event skipped - no matching LOB application found" ∧
    (WebMain.capture_error_event s e).1.db = s.db := by
  constructor
  · simp [WebMain.capture_error_event, captureAfterLookup,
      LobApplicationsService.get_lob_application_by_lob_app_and_env, h]
  · simp [WebMain.capture_error_event, captureAfterLookup,
      LobApplicationsService.get_lob_application_by_lob_app_and_env, h,
      lob_find_preserves_db]

/-- Witness for C4: the concrete event evNoConfig matches no configuration
of the concrete store db1, and ingestion skips it without touching the
store. -/
theorem c4_capture_skips_when_no_config_witness :
    (WebMain.capture_error_event sys1 evNoConfig).2
        = CaptureResponse.skipped "Error event skipped - no matching LOB application found" ∧
    (WebMain.capture_error_event sys1 evNoConfig).1.db = sys1.db :=
  c4_capture_skips_when_no_config sys1 evNoConfig rfl

/-- Claim C5, counterexample.  The claim states a lookup miss answers 404
and an illegal-transition attempt 409 or 400.  On the empty store a miss
on event 1 is answered 500 (not 404), and on the store whose event 2 is
already PROCESSING the approve is also answered 500 (neither 409 nor
400). -/
theorem c5_counterexample_miss_and_wrong_state_both_500 :
    ((WebMain.approve_error_event sys0 1).2 = ApproveResponse.httpError 500 ∧
     ((WebMain.approve_error_event sys0 1).2 == ApproveResponse.httpError 404) = false) ∧
    ((WebMain.approve_error_event sys3 2).2 = ApproveResponse.httpError 500 ∧
     ((WebMain.approve_error_event sys3 2).2 == ApproveResponse.httpError 409) = false ∧
     ((WebMain.approve_error_event sys3 2).2 == ApproveResponse.httpError 400) = false) :=
  ⟨⟨rfl, rfl⟩, rfl, rfl, rfl⟩

/-- Claim C5 as amended: every approve request is answered HTTP 500 — the
service raises ValueError for a missing event and ValidationError (from
find_by_id) for an existing one, and the handler's except Exception branch
maps both to 500, so the two conditions are not distinguishable by status
code. -/
theorem c5_approve_endpoint_always_500 (s : Sys) (event_id : Int) :
    (WebMain.approve_error_event s event_id).2 = ApproveResponse.httpError 500 := by
  obtain ⟨e, he⟩ := approve_error_event_always_raises s.eventDao s.db event_id
  simp [WebMain.approve_error_event, approveDispatch, he]

/-- Claim C6, counterexample.  The claim states that after
close_connection_pool every acquire fails with PoolClosed.  On the
concrete DAO daoWithPool, closing and then running a unit of work
succeeds: the lazy initializer constructs a second pool and getconn
returns a connection. -/
theorem c6_counterexample_acquire_after_close_succeeds :
    (ErrorEventDao.close_connection_pool daoWithPool).has_pool = false ∧
    (with_db_cursor (ErrorEventDao.close_connection_pool daoWithPool) db0
        (fun d => Except.ok (d, ()))).result = Except.ok () ∧
    (with_db_cursor (ErrorEventDao.close_connection_pool daoWithPool) db0
        (fun d => Except.ok (d, ()))).dao.pools_created = 2 ∧
    (with_db_cursor (ErrorEventDao.close_connection_pool daoWithPool) db0
        (fun d => Except.ok (d, ()))).dao.has_pool = true :=
  ⟨rfl, rfl, rfl, rfl⟩

/-- Claim C6 as amended: close_connection_pool closes the pool and resets
the reference to None, and any later unit of work lazily constructs a
fresh pool and succeeds — no PoolClosed failure exists after shutdown. -/
theorem c6_close_then_acquire_recreates_pool (dao : Dao) (db : DB) :
    (ErrorEventDao.close_connection_pool dao).has_pool = false ∧
    (with_db_cursor (ErrorEventDao.close_connection_pool dao) db
        (fun d => Except.ok (d, ()))).result = Except.ok () ∧
    (with_db_cursor (ErrorEventDao.close_connection_pool dao) db
        (fun d => Except.ok (d, ()))).dao.pools_created = dao.pools_created + 1 := by
  obtain ⟨hp, pc, aq, rl⟩ := dao
  cases hp <;> exact ⟨rfl, rfl, rfl⟩

/-- Claim C7 (failing-input evidence).  The claim states
updateUserFeedback and updateAffectedIssues atomically update their fields
and fail with NotFound only when no row matches.  The ErrorEventDao class
defines neither update_user_feedback nor update_affected_jira, so both
service methods raise AttributeError on the method lookup for every input
— row present or not — and never update anything. -/
theorem c7_feedback_and_jira_dao_methods_missing (dao : Dao) (db : DB) (event_id : Int)
    (acceptance feedback jira_ids : String) :
    (ErrorEventService.update_user_feedback dao db event_id acceptance feedback).result
        = Except.error (PyError.attributeError "update_user_feedback") ∧
    (ErrorEventService.update_user_feedback dao db event_id acceptance feedback).db = db ∧
    (ErrorEventService.update_affected_jira dao db event_id jira_ids).result
        = Except.error (PyError.attributeError "update_affected_jira") ∧
    (ErrorEventService.update_affected_jira dao db event_id jira_ids).db = db :=
  ⟨rfl, rfl, rfl, rfl⟩

/-- Claim C8.  save_error_event evaluates the INSERT parameters by reading
attributes off its argument; error_timestamp is the first of the three
undefined attributes reached (before origin_line_number and origin_class),
so every call raises AttributeError before any insert and the store is
unchanged: no insert through this path ever succeeds. -/
theorem c8_save_error_event_always_attribute_error (dao : Dao) (db : DB) (e : ErrorEvent) :
    (ErrorEventDao.save_error_event dao db e).result
        = Except.error (PyError.attributeError "error_timestamp") ∧
    (ErrorEventDao.save_error_event dao db e).db = db :=
  ⟨rfl, rfl⟩

/-- Claim C9.  The approve service never returns a truthy value: its only
normal completion returns Python None (and in fact every call raises, so
the normal path is never taken); Python None is falsy; and the handler's
dispatch maps a normal None return to HTTP 404. -/
theorem c9_approve_normal_return_is_falsy_404 (s : Sys) (event_id : Int) :
    ((ErrorEventService.approve_error_event s.eventDao s.db event_id).result
          = Except.ok PyValue.none ∨
      ∃ e, (ErrorEventService.approve_error_event s.eventDao s.db event_id).result
          = Except.error e) ∧
    PyValue.truthy PyValue.none = false ∧
    approveDispatch (Except.ok PyValue.none) = ApproveResponse.httpError 404 :=
  ⟨Or.inr (approve_error_event_always_raises _ _ _), rfl, rfl⟩

/-- Claim C10 (failing-input evidence).  The claim states every event
returned by find_by_id carries empty-string lob, application_name and
environment.  The constructor call does pass those literal empty strings
(conjuncts two to four), but it omits the required stack_trace and
timestamp fields, so on the concrete store db2 find_by_id raises
ValidationError for the existing row 1 and never returns an event at
all. -/
theorem c10_find_by_id_never_returns_event :
    (ErrorEventDao.find_by_id dao0 db2 1).result
        = Except.error (PyError.validationError "stack_trace") ∧
    lookupKw (findByIdRowKwargs row1) "lob" = Option.some (PyValue.str "") ∧
    lookupKw (findByIdRowKwargs row1) "application_name" = Option.some (PyValue.str "") ∧
    lookupKw (findByIdRowKwargs row1) "environment" = Option.some (PyValue.str "") :=
  ⟨rfl, rfl, rfl, rfl⟩
